import Mathlib

/-!
Verification of the conversational slot-filling logic of the
day-dream-itinerary travel-agent component, embedded shallowly from the
TypeScript source. The two revisions of `handleChatSubmit` (the LLM-backed
extractor in one revision, the keyword/regex rule-based extractor in
`TravelAgent.tsx`) are modelled as pure state-transition functions over the
chat transcript, the `flightParams` record and the `showFlightSearch` flag.
JavaScript runtime values that flow out of `JSON.parse` are modelled by a
small JSON value type, and the spread-with-truthiness merge of the LLM
revision is reproduced exactly.
-/

/-- A JSON-ish runtime value, as produced by `JSON.parse` of the remote
extractor output and as stored in the `flightParams` fields at runtime
(JavaScript being dynamically typed, a merge can place any JSON value in a
field). `null` doubles for a field the update does not mention. -/
inductive JsonVal where
  | null : JsonVal
  | str (s : String) : JsonVal
  | num (n : Int) : JsonVal
  | bool (b : Bool) : JsonVal
deriving DecidableEq, Repr

/-- JavaScript truthiness on the modelled JSON values: `null`, the empty
string, `0` and `false` are falsy; everything else is truthy. This is the
test `x && { field: x }` performs in the merge spreads. -/
def truthy : JsonVal → Bool
  | JsonVal.null => false
  | JsonVal.str s => !(s == "")
  | JsonVal.num n => !(n == 0)
  | JsonVal.bool b => b

/-- Whitespace as matched by the ASCII core of JavaScript `\s` and removed
by `String.prototype.trim` (the inputs of this component are ASCII). -/
def jsWhitespace (c : Char) : Bool :=
  c == ' ' || c == '\t' || c == '\n' || c == '\r' || c == '\x0b' || c == '\x0c'

/-- `String.prototype.trim`: strip leading and trailing whitespace. -/
def jsTrim (s : String) : String :=
  String.mk (((s.toList.dropWhile jsWhitespace).reverse.dropWhile jsWhitespace).reverse)

/-- `String.prototype.toLowerCase` on the ASCII range. -/
def jsLower (s : String) : String :=
  String.mk (s.toList.map Char.toLower)

/-- `needle` occurs as a contiguous substring of `hay`
(`String.prototype.includes`). -/
def listContains (hay needle : List Char) : Bool :=
  match hay with
  | [] => needle.isEmpty
  | _ :: t => needle.isPrefixOf hay || listContains t needle

/-- `s.includes(sub)`. -/
def strContains (s sub : String) : Bool :=
  listContains s.toList sub.toList

/-- Case-insensitive literal match of `pat` at the head of `l`, as the `/i`
flag makes the regex engine compare literal ASCII letters. -/
def ciStartsWith : List Char → List Char → Bool
  | [], _ => true
  | _ :: _, [] => false
  | p :: ps, c :: cs => (Char.toLower c == Char.toLower p) && ciStartsWith ps cs

/-- The character class `[^,.\n]` of the first city regex. -/
def notDelim (c : Char) : Bool :=
  !(c == ',' || c == '.' || c == '\n')

/-- The character class `[A-Za-z\s]` of the second city regex. -/
def isAlphaSpace (c : Char) : Bool :=
  c.isAlpha || jsWhitespace c

/-- The tail `\s+([^,.\n]+)` of `/from\s+([^,.\n]+)/i` at a fixed position:
`\s+` is greedy, so the engine first consumes `k` = the whole whitespace run
and backtracks down to one whitespace character until the group `[^,.\n]+`
can take at least one character. Returns the captured group. -/
def fromTail (l : List Char) : Nat → Option (List Char)
  | 0 => none
  | k + 1 =>
    let g := (l.drop (k + 1)).takeWhile notDelim
    if g.isEmpty then fromTail l k else some g

/-- Leftmost match of `/from\s+([^,.\n]+)/i`, returning capture group 1:
scan start positions left to right; at each, require the literal `from`
(case-insensitive) and then the backtracking tail. -/
def fromSearch : List Char → Option (List Char)
  | [] => none
  | c :: t =>
    if ciStartsWith ['f', 'r', 'o', 'm'] (c :: t) then
      match fromTail ((c :: t).drop 4) ((((c :: t).drop 4).takeWhile jsWhitespace).length) with
      | some g => some g
      | none => fromSearch t
    else fromSearch t

/-- The tail `.*?([A-Za-z\s]+)` of `/departure.*?([A-Za-z\s]+)/i` at a fixed
position: `.*?` is lazy, so the engine first tries the group right here, and
only on failure lets `.` (which never matches a newline) consume one more
character. The group itself is greedy. -/
def departureTail : List Char → Option (List Char)
  | [] => none
  | c :: t =>
    let g := (c :: t).takeWhile isAlphaSpace
    if !g.isEmpty then some g
    else if !(c == '\n') then departureTail t
    else none

/-- Leftmost match of `/departure.*?([A-Za-z\s]+)/i`, returning group 1. -/
def departureSearch : List Char → Option (List Char)
  | [] => none
  | c :: t =>
    if ciStartsWith ['d', 'e', 'p', 'a', 'r', 't', 'u', 'r', 'e'] (c :: t) then
      match departureTail ((c :: t).drop 9) with
      | some g => some g
      | none => departureSearch t
    else departureSearch t

/-- Leftmost match of `/(\d+)/`: the first maximal run of decimal digits. -/
def digitsSearch : List Char → Option (List Char)
  | [] => none
  | c :: t => if c.isDigit then some ((c :: t).takeWhile Char.isDigit) else digitsSearch t

/-- `parseInt` on a nonempty all-digit match. -/
def parseIntDigits (l : List Char) : Int :=
  Int.ofNat (l.foldl (fun n c => 10 * n + (c.toNat - 48)) 0)

/-- `userMessage.match(/from\s+([^,.\n]+)/i) || userMessage.match(/departure.*?([A-Za-z\s]+)/i)`,
returning capture group 1 of whichever matched first (the `from` pattern is
tried first; `null` result on the left falls through to the right). -/
def cityMatch (msg : String) : Option String :=
  match fromSearch msg.toList with
  | some g => some (String.mk g)
  | none => (departureSearch msg.toList).map String.mk

/-- A chat transcript entry (`ChatMessage` in the source). -/
inductive Role where
  | user : Role
  | assistant : Role
deriving DecidableEq, Repr

structure ChatMessage where
  role : Role
  content : String
deriving DecidableEq, Repr

/-- `FlightSearchParams`: the trip-parameter record. Fields hold the JSON
runtime values the handlers actually store (strings and numbers when the
code behaves, but arbitrary JSON after an unvalidated LLM merge). -/
structure FlightSearchParams where
  departureCity : JsonVal
  departureDate : JsonVal
  returnDate : JsonVal
  passengers : JsonVal
  budget : JsonVal
deriving DecidableEq, Repr

/-- The `useState` initial value of `flightParams`. -/
def initialFlightParams : FlightSearchParams :=
  { departureCity := JsonVal.str ""
    departureDate := JsonVal.str ""
    returnDate := JsonVal.str ""
    passengers := JsonVal.num 1
    budget := JsonVal.str "mid-range" }

/-- The state the chat handlers read and write: the transcript, the
parameter record and the search-form visibility flag. -/
structure AgentState where
  chatMessages : List ChatMessage
  flightParams : FlightSearchParams
  showFlightSearch : Bool
deriving DecidableEq, Repr

def initialAgentState : AgentState :=
  { chatMessages := [], flightParams := initialFlightParams, showFlightSearch := false }

/-- The `updates` object of the parsed LLM response: each field is a JSON
value, `null` when the message did not mention it. -/
structure ChatUpdates where
  departureCity : JsonVal
  departureDate : JsonVal
  returnDate : JsonVal
  passengers : JsonVal
  budget : JsonVal
deriving DecidableEq, Repr

/-- The parsed LLM extraction response consumed by the handler. -/
structure ExtractResult where
  hasUpdates : Bool
  updates : ChatUpdates
  responseMessage : String
  needsMoreInfo : Bool
deriving DecidableEq, Repr

/-- The merge of the LLM-variant handler:
`{...prev, ...(u.f && { f: u.f }), ...}` for the five fields — a field of
`u` is spread over `prev` exactly when its value is truthy. -/
def mergeUpdates (prev : FlightSearchParams) (u : ChatUpdates) : FlightSearchParams :=
  { departureCity := if truthy u.departureCity then u.departureCity else prev.departureCity
    departureDate := if truthy u.departureDate then u.departureDate else prev.departureDate
    returnDate := if truthy u.returnDate then u.returnDate else prev.returnDate
    passengers := if truthy u.passengers then u.passengers else prev.passengers
    budget := if truthy u.budget then u.budget else prev.budget }

/-- The transient placeholder appended while the LLM call is in flight. -/
def thinkingPlaceholder : String := "🤔 Analyzing your message..."

/-- The fixed clarification reply of the LLM revision's catch block. -/
def fallbackReply : String :=
  "Sorry, I had trouble understanding your message. Could you please rephrase it or provide more specific details like departure city, dates, number of passengers, or budget preference?"

/-- The fixed acknowledgement reply of the rule-based revision. -/
def ruleAckReply : String :=
  "I\x27ve updated your preferences! Feel free to provide more details or use the search forms below to find flights and hotels."

/-- `handleChatSubmit` of the LLM revision (`src/unnamed/part_000`,
lines 283–395) as a transition on the modelled state. `apiKeyPresent`
models the truthiness of `apiKey`; `response` is `some` for a transport
success whose body parsed, `none` when `fetch` rejected, `response.ok` was
false, or `JSON.parse` threw — all of which land in the same catch block.
The transcript updates reproduce the source order: append the user message,
append the thinking placeholder, then `slice(0, -1)` and append either the
parsed `responseMessage` or the fixed fallback reply. -/
def llmHandleChatSubmit (st : AgentState) (chatInput : String) (apiKeyPresent : Bool)
    (response : Option ExtractResult) : AgentState :=
  if jsTrim chatInput == "" then st
  else if !apiKeyPresent then st
  else
    match response with
    | none =>
      { st with
          chatMessages :=
            ((st.chatMessages ++ [ChatMessage.mk Role.user (jsTrim chatInput)]
                ++ [ChatMessage.mk Role.assistant thinkingPlaceholder]).dropLast)
              ++ [ChatMessage.mk Role.assistant fallbackReply] }
    | some result =>
      { chatMessages :=
          ((st.chatMessages ++ [ChatMessage.mk Role.user (jsTrim chatInput)]
              ++ [ChatMessage.mk Role.assistant thinkingPlaceholder]).dropLast)
            ++ [ChatMessage.mk Role.assistant result.responseMessage]
        flightParams :=
          if result.hasUpdates then mergeUpdates st.flightParams result.updates
          else st.flightParams
        showFlightSearch :=
          if result.hasUpdates then
            (if !st.showFlightSearch then true else st.showFlightSearch)
          else st.showFlightSearch }

/-- The departure-city branch of the rule-based handler
(`TravelAgent.tsx` lines 283–288). -/
def applyCityRule (userMessage lowerMessage : String) (fp : FlightSearchParams) :
    FlightSearchParams :=
  if strContains lowerMessage "departure" || strContains lowerMessage "from" then
    match cityMatch userMessage with
    | some c => { fp with departureCity := JsonVal.str (jsTrim c) }
    | none => fp
  else fp

/-- The budget branch of the rule-based handler (`TravelAgent.tsx`
lines 290–298). -/
def applyBudgetRule (lowerMessage : String) (fp : FlightSearchParams) :
    FlightSearchParams :=
  if strContains lowerMessage "budget" then
    if strContains lowerMessage "budget-friendly" || strContains lowerMessage "cheap"
        || strContains lowerMessage "budget" then
      { fp with budget := JsonVal.str "budget-friendly" }
    else if strContains lowerMessage "luxury" || strContains lowerMessage "premium" then
      { fp with budget := JsonVal.str "luxury" }
    else { fp with budget := JsonVal.str "mid-range" }
  else fp

/-- The passenger branch of the rule-based handler (`TravelAgent.tsx`
lines 300–305). -/
def applyPassengersRule (userMessage lowerMessage : String) (fp : FlightSearchParams) :
    FlightSearchParams :=
  if strContains lowerMessage "passenger" || strContains lowerMessage "people" then
    match digitsSearch userMessage.toList with
    | some ds => { fp with passengers := JsonVal.num (parseIntDigits ds) }
    | none => fp
  else fp

/-- `handleChatSubmit` of the rule-based revision (`TravelAgent.tsx`
lines 272–313): guard on the trimmed input, append the user message, apply
the three keyword branches to `flightParams` in source order, append the
fixed acknowledgement, and set `showFlightSearch` unconditionally. -/
def ruleHandleChatSubmit (st : AgentState) (chatInput : String) : AgentState :=
  if jsTrim chatInput == "" then st
  else
    { chatMessages :=
        st.chatMessages ++ [ChatMessage.mk Role.user (jsTrim chatInput), ChatMessage.mk Role.assistant ruleAckReply]
      flightParams :=
        applyPassengersRule (jsTrim chatInput) (jsLower (jsTrim chatInput))
          (applyBudgetRule (jsLower (jsTrim chatInput))
            (applyCityRule (jsTrim chatInput) (jsLower (jsTrim chatInput)) st.flightParams))
      showFlightSearch := true }

/-- The missing-information guard of `searchFlights` (`TravelAgent.tsx`
line 325): the search returns early iff this is true. -/
def flightSearchBlocked (fp : FlightSearchParams) : Bool :=
  !truthy fp.departureCity || !truthy fp.departureDate || !truthy fp.returnDate

/-- The missing-information guard of `searchHotels` (`TravelAgent.tsx`
line 198). -/
def hotelSearchBlocked (fp : FlightSearchParams) : Bool :=
  !truthy fp.departureDate || !truthy fp.returnDate

/-- One user turn of the session, for either revision of the handler. -/
inductive Turn where
  | llm (input : String) (apiKeyPresent : Bool) (response : Option ExtractResult) : Turn
  | rule (input : String) : Turn

def runTurn (st : AgentState) : Turn → AgentState
  | Turn.llm i k r => llmHandleChatSubmit st i k r
  | Turn.rule i => ruleHandleChatSubmit st i

def runTurns (st : AgentState) (ts : List Turn) : AgentState :=
  ts.foldl runTurn st

/-- Spec-side characterization of one field of the merge, following the
spec's words: a field whose update does not pass the merge's validity check
is left unchanged; a field whose update passes is overwritten with exactly
the update's value; and a field that is already set (truthy) is never reset
to unset. -/
def FieldMergeOk (rv uv rvNew : JsonVal) : Prop :=
  (truthy uv = false → rvNew = rv) ∧
  (truthy uv = true → rvNew = uv) ∧
  (truthy rv = true → truthy rvNew = true)

/-- Spec-side merge contract over all five fields of the record. -/
def MergeFrameOk (r : FlightSearchParams) (u : ChatUpdates)
    (rNew : FlightSearchParams) : Prop :=
  FieldMergeOk r.departureCity u.departureCity rNew.departureCity ∧
  FieldMergeOk r.departureDate u.departureDate rNew.departureDate ∧
  FieldMergeOk r.returnDate u.returnDate rNew.returnDate ∧
  FieldMergeOk r.passengers u.passengers rNew.passengers ∧
  FieldMergeOk r.budget u.budget rNew.budget

lemma fieldMergeOk_ite (rv uv : JsonVal) :
    FieldMergeOk rv uv (if truthy uv then uv else rv) := by
  cases h : truthy uv <;> simp [FieldMergeOk, h]

/-- C1: the LLM-variant merge leaves every field whose update is absent or
fails the merge's truthiness validation unchanged, overwrites exactly the
fields whose update passes it, and never resets a set field to unset. -/
theorem merge_frame_monotonic :
    ∀ (r : FlightSearchParams) (u : ChatUpdates), MergeFrameOk r u (mergeUpdates r u) := by
  intro r u
  exact ⟨fieldMergeOk_ite _ _, fieldMergeOk_ite _ _, fieldMergeOk_ite _ _,
    fieldMergeOk_ite _ _, fieldMergeOk_ite _ _⟩

/-- C2 counterexample: the LLM-variant merge checks only JavaScript
truthiness, so `passengers: -3` and `passengers: "abc"` both overwrite the
prior value `1` instead of being discarded, and the result is not a
positive integer in [1, 9]. -/
theorem passengers_invalid_merge_cex :
    (mergeUpdates initialFlightParams
        (ChatUpdates.mk JsonVal.null JsonVal.null JsonVal.null (JsonVal.num (-3)) JsonVal.null)).passengers
      = JsonVal.num (-3) ∧
    (mergeUpdates initialFlightParams
        (ChatUpdates.mk JsonVal.null JsonVal.null JsonVal.null (JsonVal.str "abc") JsonVal.null)).passengers
      = JsonVal.str "abc" ∧
    initialFlightParams.passengers = JsonVal.num 1 := by
  decide

/-- C2 (amended): the merge discards a passengers update exactly when it is
falsy (absent, null, or the number 0) and otherwise overwrites with the
update's value unvalidated — `passengers: 4` sets 4, but so do -3 and
"abc"; no [1, 9] range invariant is enforced at merge time. -/
theorem passengers_merge_truthiness :
    (∀ (prev : FlightSearchParams) (u : ChatUpdates),
      (truthy u.passengers = false → (mergeUpdates prev u).passengers = prev.passengers) ∧
      (truthy u.passengers = true → (mergeUpdates prev u).passengers = u.passengers)) ∧
    (mergeUpdates initialFlightParams
        (ChatUpdates.mk JsonVal.null JsonVal.null JsonVal.null (JsonVal.num 4) JsonVal.null)).passengers
      = JsonVal.num 4 := by
  constructor
  · intro prev u
    constructor <;> intro h <;> simp [mergeUpdates, h]
  · decide

lemma applyCityRule_budget (u lm : String) (fp : FlightSearchParams) :
    (applyCityRule u lm fp).budget = fp.budget := by
  unfold applyCityRule
  split
  · split <;> rfl
  · rfl

lemma applyPassengersRule_budget (u lm : String) (fp : FlightSearchParams) :
    (applyPassengersRule u lm fp).budget = fp.budget := by
  unfold applyPassengersRule
  split
  · split <;> rfl
  · rfl

lemma applyBudgetRule_contains (lm : String) (fp : FlightSearchParams)
    (h : strContains lm "budget" = true) :
    (applyBudgetRule lm fp).budget = JsonVal.str "budget-friendly" := by
  simp [applyBudgetRule, h]

lemma applyBudgetRule_not_contains (lm : String) (fp : FlightSearchParams)
    (h : strContains lm "budget" = false) :
    (applyBudgetRule lm fp).budget = fp.budget := by
  simp [applyBudgetRule, h]

/-- C3 counterexample: "I want a luxury trip" contains no "budget"
substring, so the rule-based handler leaves budget at its prior value
(mid-range here) rather than setting luxury; and "is that in my budget"
(contains "budget", no tier keyword) yields budget-friendly, not the
claimed mid-range. -/
theorem budget_extraction_cex :
    (ruleHandleChatSubmit initialAgentState "I want a luxury trip").flightParams.budget
        = JsonVal.str "mid-range" ∧
    (ruleHandleChatSubmit initialAgentState "I want a luxury trip").flightParams.budget
        ≠ JsonVal.str "luxury" ∧
    (ruleHandleChatSubmit initialAgentState "is that in my budget").flightParams.budget
        = JsonVal.str "budget-friendly" := by
  decide

/-- C3 (amended): in the rule-based extractor, "my budget is tight" and any
other message containing "budget" set budget to budget-friendly — the
luxury and mid-range branches never fire because the first branch's keyword
test includes "budget" itself — while "I want a luxury trip" and every
other message without a "budget" substring leave budget unchanged. -/
theorem budget_rule_amended :
    ∀ (st : AgentState) (m : String),
      (strContains (jsLower (jsTrim m)) "budget" = true →
        (ruleHandleChatSubmit st m).flightParams.budget = JsonVal.str "budget-friendly") ∧
      (strContains (jsLower (jsTrim m)) "budget" = false →
        (ruleHandleChatSubmit st m).flightParams.budget = st.flightParams.budget) := by
  intro st m
  by_cases h0 : jsTrim m = ""
  · constructor
    · intro h
      rw [h0] at h
      exact absurd h (by decide)
    · intro _
      simp [ruleHandleChatSubmit, h0]
  · constructor
    · intro h
      simp only [ruleHandleChatSubmit, beq_iff_eq, h0, if_false]
      rw [applyPassengersRule_budget, applyBudgetRule_contains _ _ h]
    · intro h
      simp only [ruleHandleChatSubmit, beq_iff_eq, h0, if_false]
      rw [applyPassengersRule_budget, applyBudgetRule_not_contains _ _ h,
        applyCityRule_budget]

/-- C9: in the rule-based extractor, every message containing the substring
"budget" ends with budget = budget-friendly: the outer trigger condition
implies the first branch's condition, so the luxury and mid-range branches
are unreachable. -/
theorem budget_always_friendly (st : AgentState) (m : String)
    (h : strContains (jsLower (jsTrim m)) "budget" = true) :
    (ruleHandleChatSubmit st m).flightParams.budget = JsonVal.str "budget-friendly" := by
  have h0 : ¬ jsTrim m = "" := by
    intro he
    rw [he] at h
    exact absurd h (by decide)
  simp only [ruleHandleChatSubmit, beq_iff_eq, h0, if_false]
  rw [applyPassengersRule_budget, applyBudgetRule_contains _ _ h]

theorem budget_always_friendly_witness :
    (ruleHandleChatSubmit initialAgentState "my budget is tight").flightParams.budget
      = JsonVal.str "budget-friendly" :=
  budget_always_friendly initialAgentState "my budget is tight" (by decide)

/-- C4 counterexample: "my departure is unclear" is not a silent no-op —
the fallback pattern `/departure.*?([A-Za-z\s]+)/i` captures " is unclear",
so the handler sets departureCity to the trimmed "is unclear" instead of
leaving it unchanged (it was ""). -/
theorem city_extraction_noop_cex :
    (ruleHandleChatSubmit initialAgentState "my departure is unclear").flightParams.departureCity
        = JsonVal.str "is unclear" ∧
    initialAgentState.flightParams.departureCity = JsonVal.str "" := by
  decide

/-- C4 (amended): "flying from Chicago" sets departureCity to the trimmed
"Chicago", and the "from <words>" pattern is tried first ("departure from
Chicago" also yields "Chicago"); but "my departure is unclear" matches the
fallback "departure ... <letters/spaces>" pattern and sets departureCity to
"is unclear" — the silent no-op occurs only when neither pattern matches
despite the trigger keyword, e.g. "from." leaves departureCity unchanged. -/
theorem city_rule_amended :
    (ruleHandleChatSubmit initialAgentState "flying from Chicago").flightParams.departureCity
        = JsonVal.str "Chicago" ∧
    (ruleHandleChatSubmit initialAgentState "my departure is unclear").flightParams.departureCity
        = JsonVal.str "is unclear" ∧
    (ruleHandleChatSubmit initialAgentState "from.").flightParams.departureCity
        = initialAgentState.flightParams.departureCity ∧
    (ruleHandleChatSubmit initialAgentState "departure from Chicago").flightParams.departureCity
        = JsonVal.str "Chicago" := by
  decide

/-- C5: when the extraction call fails (transport error, non-ok response or
unparsable body, all reaching the same catch block), the turn ends with the
transcript gaining the user entry and exactly one assistant entry — the
fixed fallback clarification reply, which replaces the thinking placeholder
— while the parameter record and the search-form flag are exactly as
before the turn. -/
theorem llm_failure_turn (st : AgentState) (m : String) (h : ¬ jsTrim m = "") :
    llmHandleChatSubmit st m true none =
      { st with chatMessages := st.chatMessages
          ++ [ChatMessage.mk Role.user (jsTrim m), ChatMessage.mk Role.assistant fallbackReply] } := by
  simp [llmHandleChatSubmit, h]

theorem llm_failure_turn_witness :
    llmHandleChatSubmit initialAgentState "hello" true none =
      { initialAgentState with chatMessages := initialAgentState.chatMessages
          ++ [ChatMessage.mk Role.user (jsTrim "hello"), ChatMessage.mk Role.assistant fallbackReply] } :=
  llm_failure_turn initialAgentState "hello" (by decide)

lemma runTurn_latch (st : AgentState) (t : Turn) (h : st.showFlightSearch = true) :
    (runTurn st t).showFlightSearch = true := by
  cases t with
  | rule i =>
    show (ruleHandleChatSubmit st i).showFlightSearch = true
    unfold ruleHandleChatSubmit
    split
    · exact h
    · rfl
  | llm i k r =>
    show (llmHandleChatSubmit st i k r).showFlightSearch = true
    unfold llmHandleChatSubmit
    split
    · exact h
    · split
      · exact h
      · cases r with
        | none => simpa using h
        | some res => simp [h]

/-- C6: the search-form visibility flag is a one-way latch — once true it
stays true across every further sequence of user turns, for both handler
revisions and any extractor output. -/
theorem showFlightSearch_latch (st : AgentState) (ts : List Turn)
    (h : st.showFlightSearch = true) :
    (runTurns st ts).showFlightSearch = true := by
  induction ts generalizing st with
  | nil => exact h
  | cons t rest ih => exact ih (runTurn st t) (runTurn_latch st t h)

theorem showFlightSearch_latch_witness :
    (runTurns (AgentState.mk [] initialFlightParams true)
        [Turn.rule "no updates here", Turn.llm "hi" true none]).showFlightSearch = true :=
  showFlightSearch_latch (AgentState.mk [] initialFlightParams true)
    [Turn.rule "no updates here", Turn.llm "hi" true none] (by decide)

/-- C7: the missing-information guard of `searchFlights` blocks exactly
when one of departureCity, departureDate, returnDate is empty — so the
search proceeds iff all three are non-empty — and the `searchHotels` guard
depends only on the two dates, with departureCity not required. -/
theorem search_gates_characterization :
    ∀ (c d r : String) (p b : JsonVal),
      (flightSearchBlocked
          (FlightSearchParams.mk (JsonVal.str c) (JsonVal.str d) (JsonVal.str r) p b)
        = (c == "" || d == "" || r == "")) ∧
      (hotelSearchBlocked
          (FlightSearchParams.mk (JsonVal.str c) (JsonVal.str d) (JsonVal.str r) p b)
        = (d == "" || r == "")) := by
  intro c d r p b
  constructor <;> simp [flightSearchBlocked, hotelSearchBlocked, truthy]

/-- C8: for every non-blank message, the rule-based handler ends the turn
with exactly the fixed acknowledgement appended as the assistant entry and
sets the search-form flag, whether or not any field changed. -/
theorem rule_turn_always_acks (st : AgentState) (m : String) (h : ¬ jsTrim m = "") :
    (ruleHandleChatSubmit st m).chatMessages =
        st.chatMessages
          ++ [ChatMessage.mk Role.user (jsTrim m), ChatMessage.mk Role.assistant ruleAckReply] ∧
    (ruleHandleChatSubmit st m).showFlightSearch = true := by
  simp [ruleHandleChatSubmit, h]

theorem rule_turn_always_acks_witness :
    (ruleHandleChatSubmit initialAgentState "nothing to extract").chatMessages =
        initialAgentState.chatMessages
          ++ [ChatMessage.mk Role.user (jsTrim "nothing to extract"),
              ChatMessage.mk Role.assistant ruleAckReply] ∧
    (ruleHandleChatSubmit initialAgentState "nothing to extract").showFlightSearch = true :=
  rule_turn_always_acks initialAgentState "nothing to extract" (by decide)

/-- C10: a blank (empty or whitespace-only) chat submission is a complete
no-op for both handler revisions: transcript, parameter record and flag are
returned untouched. -/
theorem blank_input_noop (st : AgentState) (m : String) (k : Bool)
    (resp : Option ExtractResult) (h : jsTrim m = "") :
    ruleHandleChatSubmit st m = st ∧ llmHandleChatSubmit st m k resp = st := by
  constructor <;> simp [ruleHandleChatSubmit, llmHandleChatSubmit, h]

theorem blank_input_noop_witness :
    ruleHandleChatSubmit initialAgentState "   " = initialAgentState ∧
    llmHandleChatSubmit initialAgentState "   " true none = initialAgentState :=
  blank_input_noop initialAgentState "   " true none (by decide)
